import Mathlib

/-!
Shallow embedding of `scripts/sync_garmin.py` (a Garmin Connect daily
health sync script) and proofs about it.

Conventions used throughout:
* Python numbers are modelled as `ℚ` (JSON numbers), `int(x)` as truncation
  toward zero (`pyInt`), `//` as `Int.fdiv` and `%` as `Int.fmod` (Python
  floor division / sign-of-divisor modulus).
* A Python value that may be `None` is an `Option`.
* Code that can raise an exception is modelled in `Except String`; the
  string is the exception class name.
* Raw JSON responses are modelled by `JVal`; dict field access `.get` on a
  non-dict raises `AttributeError`, exactly as in CPython.
-/

/-- Rational multiplication written with the smart constructor `mkRat`, so
that it evaluates by kernel reduction (the library multiplication is
deliberately irreducible). Proven equal to `*` in `qMul_eq`. -/
def qMul (a b : ℚ) : ℚ := mkRat (a.num * b.num) (a.den * b.den)

/-- Rational division written with `Rat.divInt`, so that it evaluates by
kernel reduction. Proven equal to `/` in `qDiv_eq`. -/
def qDiv (a b : ℚ) : ℚ := Rat.divInt (a.num * b.den) (a.den * b.num)

theorem qMul_eq (a b : ℚ) : qMul a b = a * b := by
  rw [qMul, Rat.mkRat_eq_div]
  push_cast
  rw [← div_mul_div_comm, Rat.num_div_den, Rat.num_div_den]

theorem qDiv_eq (a b : ℚ) : qDiv a b = a / b := by
  rw [qDiv, Rat.divInt_eq_div]
  rcases eq_or_ne b 0 with rfl | hb
  · norm_num
  · have hbn : (b.num : ℚ) ≠ 0 := Int.cast_ne_zero.mpr (Rat.num_ne_zero.mpr hb)
    have had : (a.den : ℚ) ≠ 0 := Nat.cast_ne_zero.mpr a.den_nz
    have hbd : (b.den : ℚ) ≠ 0 := Nat.cast_ne_zero.mpr b.den_nz
    have ha : (a.den : ℚ) * a = a.num := by
      calc (a.den : ℚ) * a = (a.den : ℚ) * ((a.num : ℚ) / a.den) := by rw [Rat.num_div_den]
        _ = a.num := by field_simp
    have hb2 : (b.den : ℚ) * b = b.num := by
      calc (b.den : ℚ) * b = (b.den : ℚ) * ((b.num : ℚ) / b.den) := by rw [Rat.num_div_den]
        _ = b.num := by field_simp
    rw [div_eq_div_iff (by push_cast; exact mul_ne_zero had hbn) hb]
    push_cast
    linear_combination (a.num : ℚ) * hb2 - (b.num : ℚ) * ha

/-- Python `int(q)` on a rational: truncation toward zero. -/
def pyInt (q : ℚ) : ℤ :=
  Int.sign q.num * ((q.num.natAbs / q.den : ℕ) : ℤ)

/-- Round a rational to the nearest integer, ties to even: the rounding of
Python float formatting. Stated on the numerator and denominator so that
it evaluates by kernel reduction. -/
def roundHalfEven (q : ℚ) : ℤ :=
  let n := q.num
  let d := (q.den : ℤ)
  let fl := Int.fdiv n d
  let r := n - fl * d
  if 2 * r < d then fl
  else if d < 2 * r then fl + 1
  else if fl % 2 = 0 then fl else fl + 1

/-- Python format spec `{:.0f}`: round to an integer, ties to even. -/
def fmt0 (q : ℚ) : String := toString (roundHalfEven q)

/-- Python format spec `{:.1f}` on a nonnegative value: one fixed decimal. -/
def fmt1abs (q : ℚ) : String :=
  let scaled := roundHalfEven (qMul q 10)
  toString (Int.fdiv scaled 10) ++ "." ++ toString (Int.fmod scaled 10)

/-- Python format spec `{:.1f}`: sign, then one fixed decimal digit. -/
def fmt1 (q : ℚ) : String :=
  if q < 0 then "-" ++ fmt1abs (-q) else fmt1abs q

/-- Python `round(q, 1)`: round to one decimal place, ties to even. -/
def round1 (q : ℚ) : ℚ := mkRat (roundHalfEven (qMul q 10)) 10

/-- Python format spec `{:02d}`: left-pad with a zero to width 2. -/
def pad2 (n : ℤ) : String :=
  if 0 ≤ n ∧ n < 10 then "0" ++ toString n else toString n

/-- `fmt_duration` (source lines 158-165): seconds to an "Xh YYm" string,
`None` to an em dash. -/
def fmt_duration : Option ℚ → String
  | none => "—"
  | some seconds =>
    let total_minutes := Int.fdiv (pyInt seconds) 60
    let hours := Int.fdiv total_minutes 60
    let minutes := Int.fmod total_minutes 60
    toString hours ++ "h " ++ pad2 minutes ++ "m"

/-- `fmt_duration_mmss` (source lines 168-175): seconds to an "M:SS" string,
`None` to an em dash. -/
def fmt_duration_mmss : Option ℚ → String
  | none => "—"
  | some seconds =>
    let total_seconds := pyInt seconds
    let minutes := Int.fdiv total_seconds 60
    let secs := Int.fmod total_seconds 60
    toString minutes ++ ":" ++ pad2 secs

/-- The stress bucketing ladder of `fetch_stress` (source lines 461-468). -/
def stress_level (avg : ℤ) : String :=
  if avg < 26 then "Rest"
  else if avg < 51 then "Low"
  else if avg < 76 then "Medium"
  else "High"

/-- Lowercasing as Python `str.lower` (ASCII behaviour). -/
def pyLower (s : String) : String := String.mk (s.data.map Char.toLower)

/-- Python `str.title`: uppercase a letter that does not follow a letter,
lowercase every other letter (ASCII behaviour). -/
def titleChars : Bool → List Char → List Char
  | _, [] => []
  | prevAlpha, c :: cs =>
    (if c.isAlpha then (if prevAlpha then c.toLower else c.toUpper) else c)
      :: titleChars c.isAlpha cs

/-- Python `str.title` on a whole string. -/
def pyTitle (s : String) : String := String.mk (titleChars false s.data)

/-- The idiom `s.replace("_", " ").title()` used for qualifier, status and
factor keys in the source. -/
def pyReplTitle (s : String) : String :=
  pyTitle (String.mk (s.data.map fun c => if c = '_' then ' ' else c))

/-- The camel-case splitting regex substitution of source line 242: insert a
space between a lowercase letter and the uppercase letter following it. -/
def camelSplit : List Char → List Char
  | [] => []
  | [c] => [c]
  | a :: b :: rest =>
    if a.isLower ∧ b.isUpper then a :: ' ' :: camelSplit (b :: rest)
    else a :: camelSplit (b :: rest)

/-- Substring test on character lists (used for Python `needle in hay`). -/
def containsSub (needle : List Char) : List Char → Bool
  | [] => needle.isEmpty
  | c :: rest => needle.isPrefixOf (c :: rest) || containsSub needle rest

/-- Python `needle in hay` on strings. -/
def strContains (hay needle : String) : Bool := containsSub needle.data hay.data

/-- A JSON value as returned by the remote client library. -/
inductive JVal where
  | null
  | bool (b : Bool)
  | num (q : ℚ)
  | str (s : String)
  | arr (xs : List JVal)
  | obj (kvs : List (String × JVal))

/-- Python truthiness of a JSON value. -/
def JVal.truthy : JVal → Bool
  | .null => false
  | .bool b => b
  | .num q => decide (q ≠ 0)
  | .str s => decide (s ≠ "")
  | .arr xs => !xs.isEmpty
  | .obj kvs => !kvs.isEmpty

/-- A JSON value usable as a Python number (`bool` is an `int` subclass). -/
def JVal.asNum : JVal → Option ℚ
  | .num q => some q
  | .bool b => some (if b then 1 else 0)
  | _ => none

/-- `d.get(k, dflt)`: field lookup with a default on a dict; on any
non-dict receiver CPython raises `AttributeError`. -/
def pyGetD : JVal → String → JVal → Except String JVal
  | .obj kvs, k, dflt => .ok ((kvs.lookup k).getD dflt)
  | _, _, _ => .error "AttributeError"

/-- `d.get(k)`: field lookup defaulting to `None`. -/
def pyGet (v : JVal) (k : String) : Except String JVal := pyGetD v k .null

/-- Python `a or b` on JSON values: `a` when truthy, else `b`. -/
def pyOr (a b : JVal) : JVal := if a.truthy then a else b

/-- Rendering a rational for an f-string. A value with denominator 1 prints
as the integer; the shortest-round-trip repr of other binary floats is
approximated by a fraction (no theorem in this file evaluates that case). -/
def qRepr (q : ℚ) : String :=
  if q.den = 1 then toString q.num
  else toString q.num ++ "/" ++ toString q.den

/-- f-string interpolation of a JSON value (container reprs are not
modelled; no theorem in this file evaluates them). -/
def jRepr : JVal → String
  | .null => "None"
  | .bool b => if b then "True" else "False"
  | .num q => qRepr q
  | .str s => s
  | .arr _ => "[...]"
  | .obj _ => "[...]"

/-- `fmt_duration` applied to a raw JSON field: `None` gives the dash, a
number is formatted, anything else makes `int()` raise. (CPython would
also accept a numeric string; that coercion is not modelled and no theorem
relies on it.) -/
def fmtDurJ : JVal → Except String String
  | .null => .ok (fmt_duration none)
  | .num q => .ok (fmt_duration (some q))
  | .bool b => .ok (fmt_duration (some (if b then 1 else 0)))
  | _ => .error "TypeError"

/-- Python iteration over a JSON value: lists yield elements, dicts yield
their keys, strings yield their characters, the rest raise `TypeError`. -/
def jIter : JVal → Except String (List JVal)
  | .arr xs => .ok xs
  | .obj kvs => .ok (kvs.map fun kv => .str kv.1)
  | .str s => .ok (s.data.map fun c => .str (String.mk [c]))
  | _ => .error "TypeError"

/-- Source lines 215-230: render the optional "Sleep Need" line. A dict
value is probed at keys actual/value/duration via Python `or`; a numeric
hit below 1440 is reinterpreted as minutes (times 60). A truthy non-dict
value is formatted directly, with no reinterpretation. -/
def sleep_need_lines (sleep_need : JVal) : Except String (List String) :=
  if sleep_need.truthy then
    match sleep_need with
    | .obj kvs =>
      let val := pyOr ((kvs.lookup "actual").getD .null)
        (pyOr ((kvs.lookup "value").getD .null) ((kvs.lookup "duration").getD .null))
      match val with
      | .null => .ok []
      | v =>
        match v.asNum with
        | some q =>
          .ok ["Sleep Need: " ++ fmt_duration (some (if q < 1440 then qMul q 60 else q))]
        | none => .error "TypeError"
    | v =>
      match v.asNum with
      | some q => .ok ["Sleep Need: " ++ fmt_duration (some q)]
      | none => .error "TypeError"
  else .ok []

/-- One entry of the sleep-factor loop (source lines 234-243): skip an
entry with a falsy `factorKey`, otherwise render "Key: Status". -/
def factor_part (f : JVal) : Except String (Option String) := do
  let key ← pyGet f "factorKey"
  if key.truthy then
    let st ← pyGetD f "status" (.str "")
    match st, key with
    | .str sts, .str ks =>
      .ok (some (pyReplTitle (String.mk (camelSplit ks.data)) ++ ": " ++ pyReplTitle sts))
    | _, _ => .error "TypeError"
  else .ok none

/-- Collect the rendered sleep factors in order. -/
def collect_factors (fs : List JVal) : Except String (List String) :=
  fs.foldlM (fun acc f => do
    match ← factor_part f with
    | some p => pure (acc ++ [p])
    | none => pure acc) []

/-- `fetch_sleep` (source lines 178-248). The argument is the result of
`client.get_sleep_data(day)`: `.error` when the remote call raised (which
the fetcher catches, returning `None`), `.ok` with the decoded JSON
otherwise. The returned value is `.ok (some fragment)` or `.ok none`
("no data"), or `.error` when the parsing after the guarded call raises. -/
def fetch_sleep (resp : Except String JVal) : Except String (Option String) :=
  match resp with
  | .error _ => .ok none
  | .ok data => do
    let daily ← pyGetD data "dailySleepDTO" (.obj [])
    if ¬ daily.truthy then return none
    let sts ← pyGet daily "sleepTimeSeconds"
    if ¬ sts.truthy then return none
    let total ← fmtDurJ (← pyGet daily "sleepTimeSeconds")
    let deep ← fmtDurJ (← pyGet daily "deepSleepSeconds")
    let light ← fmtDurJ (← pyGet daily "lightSleepSeconds")
    let rem ← fmtDurJ (← pyGet daily "remSleepSeconds")
    let awake ← fmtDurJ (← pyGet daily "awakeSleepSeconds")
    let ss ← pyGetD daily "sleepScores" (.obj [])
    let ov ← pyGetD ss "overall" (.obj [])
    let score ← pyGet ov "value"
    let qualifier ← pyGetD ov "qualifierKey" (.str "")
    let qualifier_str ←
      if qualifier.truthy then
        match qualifier with
        | .str qs => Except.ok (pyReplTitle qs)
        | _ => Except.error "AttributeError"
      else Except.ok ""
    let header := "## Sleep: " ++ total ++
      (if qualifier_str ≠ "" then " (" ++ qualifier_str ++ ")" else "")
    let lines := [header,
      "Deep: " ++ deep ++ " | Light: " ++ light ++ " | REM: " ++ rem ++ " | Awake: " ++ awake]
    let lines := lines ++
      (match score with
       | .null => []
       | v => ["Sleep Score: " ++ jRepr v])
    let sn ← pyGet daily "sleepNeed"
    let needLines ← sleep_need_lines sn
    let lines := lines ++ needLines
    let ss2 ← pyGetD daily "sleepScores" (.obj [])
    let ov2 ← pyGetD ss2 "overall" (.obj [])
    let factorsJ ← pyGetD ov2 "factors" (.arr [])
    let fs ← jIter factorsJ
    let factor_parts ← collect_factors fs
    let lines := lines ++
      (if factor_parts ≠ [] then
        ["Sleep Factors: " ++ String.intercalate " | " factor_parts]
      else [])
    return some (String.intercalate "\n" lines)

instance exceptDecEq {e a : Type} [DecidableEq e] [DecidableEq a] : DecidableEq (Except e a) :=
  fun x y =>
  match x, y with
  | .error u, .error v => decidable_of_iff (u = v) (by simp)
  | .ok u, .ok v => decidable_of_iff (u = v) (by simp)
  | .error _, .ok _ => isFalse (fun h => Except.noConfusion h)
  | .ok _, .error _ => isFalse (fun h => Except.noConfusion h)

/-- Python truthiness of an optional number (`None` and `0` are falsy). -/
def truthyQ : Option ℚ → Bool
  | some q => decide (q ≠ 0)
  | none => false

/-- Python truthiness of an optional integer. -/
def truthyZ : Option ℤ → Bool
  | some n => decide (n ≠ 0)
  | none => false

/-- The `overallStressLevel` field of an all-day stress response. -/
structure StressData where
  overallStressLevel : Option ℤ
deriving DecidableEq

/-- `fetch_stress` (source lines 445-470). The argument is the result of
`client.get_all_day_stress(day)`: `.error` when the call raised (caught,
"no data"), `.ok none` for a falsy response, `.ok (some d)` otherwise. -/
def fetch_stress : Except String (Option StressData) → Option String
  | .error _ => none
  | .ok none => none
  | .ok (some d) =>
    match d.overallStressLevel with
    | none => none
    | some avg => some ("## Stress: Avg " ++ toString avg ++ " (" ++ stress_level avg ++ ")")

/-- One entry of a lifestyle-log `details` list. -/
structure LifestyleDetail where
  amount : Option ℚ
  subTypeName : Option String
deriving DecidableEq

/-- One entry of the `dailyLogsReport` list. -/
structure LifestyleLog where
  logStatus : Option String
  name : Option String
  behaviourId : Option ℤ
  details : List LifestyleDetail
deriving DecidableEq

/-- A lifestyle-logging response: its `dailyLogsReport` list. -/
structure LifestyleData where
  dailyLogsReport : List LifestyleLog
deriving DecidableEq

/-- The body of the lifestyle loop (source lines 274-296): keep only
entries logged "YES"; name falls back to `str(behaviourId)`; every detail
with an amount is rendered, with a lowercased unit when one is present. -/
def lifestyle_line (log : LifestyleLog) : Option String :=
  if log.logStatus ≠ some "YES" then none
  else
    let nm :=
      match log.name with
      | some n =>
        if n ≠ "" then n
        else match log.behaviourId with
          | some b => toString b
          | none => ""
      | none =>
        match log.behaviourId with
        | some b => toString b
        | none => ""
    let detail_strs := log.details.filterMap fun d =>
      match d.amount with
      | some a =>
        some (match d.subTypeName with
          | some st => if st ≠ "" then qRepr a ++ " " ++ pyLower st else qRepr a
          | none => qRepr a)
      | none => none
    some ("- " ++ nm ++
      (if detail_strs ≠ [] then ": " ++ String.intercalate ", " detail_strs else ""))

/-- `fetch_lifestyle` (source lines 251-301). `.error` is a raised remote
call (caught), `.ok none` a falsy response. -/
def fetch_lifestyle : Except String (Option LifestyleData) → Option String
  | .error _ => none
  | .ok none => none
  | .ok (some d) =>
    if d.dailyLogsReport = [] then none
    else
      let lines := ["## Lifestyle"] ++ d.dailyLogsReport.filterMap lifestyle_line
      if lines.length = 1 then none
      else some (String.intercalate "\n" lines)

/-- One element of a training-readiness response list. -/
structure TREntry where
  score : Option ℤ
  level : Option String
  feedbackShort : Option String
deriving DecidableEq

/-- `fetch_training_readiness` (source lines 473-498): non-list, falsy or
empty responses give no data; otherwise the first entry is rendered. -/
def fetch_training_readiness : Except String (List TREntry) → Option String
  | .error _ => none
  | .ok [] => none
  | .ok (entry :: _) =>
    match entry.score with
    | none => none
    | some score =>
      let level := pyReplTitle (entry.level.getD "")
      let feedback := pyReplTitle (entry.feedbackShort.getD "")
      some ("## Training Readiness: " ++ toString score ++
        (if level ≠ "" then " (" ++ level ++ ")" else "") ++
        (if feedback ≠ "" then " — " ++ feedback else ""))

/-- The four fields of a respiration response used by the source. -/
structure RespData where
  avgWakingRespirationValue : Option ℚ
  avgSleepRespirationValue : Option ℚ
  lowestRespirationValue : Option ℚ
  highestRespirationValue : Option ℚ
deriving DecidableEq

/-- `fetch_respiration` (source lines 501-528): truthy fields become parts;
no truthy part means no data. -/
def fetch_respiration : Except String (Option RespData) → Option String
  | .error _ => none
  | .ok none => none
  | .ok (some d) =>
    let parts :=
      (if truthyQ d.avgWakingRespirationValue then
        ["Waking: " ++ fmt0 (d.avgWakingRespirationValue.getD 0) ++ " brpm"] else [])
      ++ (if truthyQ d.avgSleepRespirationValue then
        ["Sleeping: " ++ fmt0 (d.avgSleepRespirationValue.getD 0) ++ " brpm"] else [])
      ++ (if truthyQ d.lowestRespirationValue ∧ truthyQ d.highestRespirationValue then
        ["Range: " ++ fmt0 (d.lowestRespirationValue.getD 0) ++ "–" ++
          fmt0 (d.highestRespirationValue.getD 0)] else [])
    if parts = [] then none
    else some ("## Respiration: " ++ String.intercalate " | " parts)

/-- The two fields of a fitness-age response used by the source. -/
structure FitnessAgeData where
  fitnessAge : Option ℚ
  chronologicalAge : Option ℤ
deriving DecidableEq

/-- `fetch_fitness_age` (source lines 531-555): renders the truncated
fitness age and, when the chronological age is present, the signed delta. -/
def fetch_fitness_age : Except String (Option FitnessAgeData) → Option String
  | .error _ => none
  | .ok none => none
  | .ok (some d) =>
    match d.fitnessAge with
    | none => none
    | some fa =>
      let line := "## Fitness Age: " ++ toString (pyInt fa)
      match d.chronologicalAge with
      | none => some line
      | some ca =>
        let diff := pyInt fa - ca
        if diff < 0 then some (line ++ " (" ++ toString (-diff) ++ " years younger)")
        else if diff > 0 then some (line ++ " (" ++ toString diff ++ " years older)")
        else some line

/-- The four fields of a weekly intensity-minutes response. -/
structure IntensityData where
  weeklyModerate : Option ℤ
  weeklyVigorous : Option ℤ
  weeklyTotal : Option ℤ
  weekGoal : Option ℤ
deriving DecidableEq

/-- `fetch_intensity_minutes` (source lines 558-589). -/
def fetch_intensity_minutes : Except String (Option IntensityData) → Option String
  | .error _ => none
  | .ok none => none
  | .ok (some d) =>
    match d.weeklyTotal with
    | none => none
    | some total =>
      let detail :=
        (match d.weeklyModerate with
         | some m => ["Moderate: " ++ toString m]
         | none => [])
        ++ (match d.weeklyVigorous with
            | some v => ["Vigorous: " ++ toString v]
            | none => [])
        ++ (match d.weekGoal with
            | some g => ["Goal: " ++ toString g]
            | none => [])
      let parts := ["## Intensity Minutes: " ++ toString total ++ " weekly"]
        ++ (if detail ≠ [] then [String.intercalate " | " detail] else [])
      some (String.intercalate "\n" parts)

/-- Thousands-grouping of Python `{:,}`: commas every three digits. -/
def group3 : List Char → List Char
  | a :: b :: c :: d :: rest => a :: b :: c :: ',' :: group3 (d :: rest)
  | l => l

/-- Python format spec `{:,}` on an integer. -/
def fmtComma (n : ℤ) : String :=
  (if n < 0 then "-" else "") ++ String.mk (group3 (toString n.natAbs).data.reverse).reverse

/-- The user-summary fields read by `fetch_body`. -/
structure UserSummary where
  totalSteps : Option ℤ
  totalKilocalories : Option ℚ
  totalDistanceMeters : Option ℚ
  floorsAscended : Option ℚ
deriving DecidableEq

/-- The heart-rate fields read by `fetch_body`. -/
structure HeartRates where
  restingHeartRate : Option ℤ
  maxHeartRate : Option ℤ
deriving DecidableEq

/-- One sample of the body-battery series. -/
structure BBEntry where
  chargedValue : Option ℤ
deriving DecidableEq

/-- The `hrvSummary` object of an HRV response. -/
structure HrvSummary where
  weeklyAvg : Option ℤ
  lastNightAvg : Option ℤ
deriving DecidableEq

/-- An HRV response; `hrvSummary = none` models an absent or falsy
`hrvSummary` object. -/
structure HrvData where
  hrvSummary : Option HrvSummary
deriving DecidableEq

/-- An SpO2 response. -/
structure Spo2Data where
  averageSpO2 : Option ℚ
deriving DecidableEq

/-- One entry of the `dateWeightList` of a weigh-ins response (grams). -/
structure WeighIn where
  weight : Option ℚ
deriving DecidableEq

/-- Source lines 325-339: the maximum `chargedValue` over the body-battery
samples of the day, when the series is a nonempty list and at least one
sample carries a value. -/
def body_battery (bb : Option (List BBEntry)) : Option ℤ :=
  match bb with
  | none => none
  | some entries =>
    if entries.length > 0 then (entries.filterMap (fun e => e.chargedValue)).max?
    else none

/-- Source lines 341-358: the rendered HRV fragment. A truthy `hrvSummary`
always yields a string (possibly empty, when both averages are falsy). -/
def hrv_string (hd : Option HrvData) : Option String :=
  match hd with
  | none => none
  | some d =>
    match d.hrvSummary with
    | none => none
    | some s =>
      let det :=
        (match s.weeklyAvg with
         | some w => if w ≠ 0 then ["Weekly HRV Avg: " ++ toString w ++ " ms"] else []
         | none => [])
        ++ (match s.lastNightAvg with
            | some l => if l ≠ 0 then ["Last Night HRV Avg: " ++ toString l ++ " ms"] else []
            | none => [])
      some (String.intercalate " | " det)

/-- Source lines 360-368: the average SpO2 when the response is truthy. -/
def spo2_val (sd : Option Spo2Data) : Option ℚ := sd.bind (fun d => d.averageSpO2)

/-- Source lines 370-382: the weight of the first weigh-in, grams to kilograms
rounded to one decimal, when present and truthy. -/
def weight_val (wd : Option (List WeighIn)) : Option ℚ :=
  match wd with
  | none => none
  | some [] => none
  | some (e :: _) =>
    match e.weight with
    | some g => if g ≠ 0 then some (round1 (qDiv g 1000)) else none
    | none => none

/-- Source lines 387-442: build the Body section once at least one of the
four gating sources is present. -/
def body_build (sm : Option UserSummary) (hr : Option HeartRates)
    (battery : Option ℤ) (hrv : Option String) (spo2 : Option ℚ)
    (weight : Option ℚ) : String :=
  let steps := sm.bind (fun s => s.totalSteps)
  let calories := sm.bind (fun s => s.totalKilocalories)
  let header_parts :=
    (match steps with
     | some s => [fmtComma s ++ " steps"]
     | none => [])
    ++ (match calories with
        | some c => [fmtComma (pyInt c) ++ " cal"]
        | none => [])
  let header := "## Body" ++
    (if header_parts ≠ [] then ": " ++ String.intercalate " | " header_parts else "")
  let detail_parts :=
    match sm with
    | none => []
    | some s =>
      (match s.totalDistanceMeters with
       | some dm => ["Distance: " ++ fmt1 (qDiv dm 1000) ++ " km"]
       | none => [])
      ++ (match s.floorsAscended with
          | some fl => ["Floors: " ++ toString (pyInt fl)]
          | none => [])
  let hr_parts :=
    match hr with
    | none => []
    | some h =>
      (if truthyZ h.restingHeartRate then
        ["Resting HR: " ++ toString (h.restingHeartRate.getD 0) ++ " bpm"] else [])
      ++ (if truthyZ h.maxHeartRate then
          ["Max HR: " ++ toString (h.maxHeartRate.getD 0) ++ " bpm"] else [])
  let extra_parts :=
    (match battery with
     | some b => ["Body Battery: " ++ toString b]
     | none => [])
    ++ (match hrv with
        | some s => [s]
        | none => [])
  let lines := [header]
    ++ (if detail_parts ≠ [] then [String.intercalate " | " detail_parts] else [])
    ++ (if hr_parts ≠ [] then [String.intercalate " | " hr_parts] else [])
    ++ (if extra_parts ≠ [] then [String.intercalate " | " extra_parts] else [])
    ++ (match spo2 with
        | some v => ["SpO2: " ++ qRepr v ++ "%"]
        | none => [])
    ++ (match weight with
        | some w => ["Weight: " ++ fmt1 w ++ " kg"]
        | none => [])
  String.intercalate "\n" lines

/-- `fetch_body` (source lines 304-442). Each of the six remote sources is
fetched under its own try/except; an argument is `none` when its fetch
raised or its response was falsy. The whole section is dropped exactly
when the summary, heart-rate, battery and HRV sources are all absent. -/
def fetch_body (sm : Option UserSummary) (hr : Option HeartRates)
    (bb : Option (List BBEntry)) (hd : Option HrvData) (sd : Option Spo2Data)
    (wd : Option (List WeighIn)) : Option String :=
  if sm = none ∧ hr = none ∧ body_battery bb = none ∧ hrv_string hd = none then none
  else some (body_build sm hr (body_battery bb) (hrv_string hd) (spo2_val sd) (weight_val wd))

/-- The characters after the first occurrence of `c`, when `c` occurs. -/
def afterFirst (c : Char) : List Char → Option (List Char)
  | [] => none
  | x :: xs => if x = c then some xs else afterFirst c xs

/-- Source lines 612-623: a "HH:MM" prefix from an ISO or space-delimited
local timestamp string — the text after the first T (or, failing that, the
first space), truncated to five characters. -/
def start_hm_from_str (s : String) : Option String :=
  match afterFirst 'T' s.data with
  | some l => some (String.mk (l.take 5))
  | none =>
    match afterFirst ' ' s.data with
    | some l => some (String.mk (l.take 5))
    | none => none

/-- Python `a or b` on optional strings (empty strings are falsy). -/
def pyOrStr (a b : Option String) : Option String :=
  match a with
  | some s => if s ≠ "" then some s else b
  | none => b

/-- The activity fields read by `fetch_activities`. -/
structure Activity where
  activityName : Option String
  duration : Option ℚ
  startTimeLocal : Option String
  startTimeGMT : Option String
  beginTimestamp : Option ℚ
  distance : Option ℚ
  calories : Option ℚ
  averageHR : Option ℚ
  maxHR : Option ℚ
  elevationGain : Option ℚ
  averageSpeed : Option ℚ
  averageRunningCadenceInStepsPerMinute : Option ℚ
  avgPower : Option ℚ
  maxPower : Option ℚ
  aerobicTrainingEffect : Option ℚ
  anaerobicTrainingEffect : Option ℚ
  vO2MaxValue : Option ℚ
deriving DecidableEq

/-- Source lines 610-634: best-effort local start time. String timestamps
are tried first; the epoch-millisecond fallback delegates to the ambient
local-time conversion `epochToHM` (the out-of-scope datetime library),
which may itself fail (the source wraps it in try/except). -/
def activity_start_hm (epochToHM : ℚ → Option String) (act : Activity) : Option String :=
  let start_local := pyOrStr act.startTimeLocal act.startTimeGMT
  let from_str :=
    match start_local with
    | some s => start_hm_from_str s
    | none => none
  match from_str with
  | some h => some h
  | none =>
    match act.beginTimestamp with
    | some ts => if ts > 0 then epochToHM ts else none
    | none => none

/-- Source lines 656-662: the heart-rate detail. -/
def hr_detail (act : Activity) : Option String :=
  match act.averageHR with
  | some ah =>
    if ah ≠ 0 ∧ 0 < ah then
      some ("Avg HR " ++ toString (pyInt ah) ++
        (match act.maxHR with
         | some mh => if mh ≠ 0 ∧ 0 < mh then " / Max " ++ toString (pyInt mh) else ""
         | none => ""))
    else none
  | none => none

/-- Source lines 664-666: the elevation detail. -/
def elev_detail (act : Activity) : Option String :=
  match act.elevationGain with
  | some e => if e ≠ 0 ∧ 0 < e then some ("Elevation: +" ++ toString (pyInt e) ++ "m") else none
  | none => none

/-- Source lines 668-673: the pace detail. The division `1000 / speed` is
computed only under the guard requiring a truthy positive speed and a
truthy positive distance. -/
def pace_detail (act : Activity) : Option String :=
  match act.averageSpeed, act.distance with
  | some s, some d =>
    if s ≠ 0 ∧ 0 < s ∧ d ≠ 0 ∧ 0 < d then
      let pace_sec := qDiv 1000 s
      let pace_min := Int.fdiv (pyInt pace_sec) 60
      let pace_s := Int.fmod (pyInt pace_sec) 60
      some ("Pace: " ++ toString pace_min ++ ":" ++ pad2 pace_s ++ "/km")
    else none
  | _, _ => none

/-- Source lines 675-677: the cadence detail. -/
def cadence_detail (act : Activity) : Option String :=
  match act.averageRunningCadenceInStepsPerMinute with
  | some c => if c ≠ 0 ∧ 0 < c then some ("Cadence: " ++ toString (pyInt c) ++ " spm") else none
  | none => none

/-- Source lines 679-685: the power detail. -/
def power_detail (act : Activity) : Option String :=
  match act.avgPower with
  | some p =>
    if p ≠ 0 ∧ 0 < p then
      some ("Power: " ++ toString (pyInt p) ++ "W" ++
        (match act.maxPower with
         | some mp => if mp ≠ 0 ∧ 0 < mp then " / Max " ++ toString (pyInt mp) ++ "W" else ""
         | none => ""))
    else none
  | none => none

/-- Source lines 687-693: the training-effect detail. -/
def te_detail (act : Activity) : Option String :=
  match act.aerobicTrainingEffect with
  | some a =>
    if a ≠ 0 ∧ 0 < a then
      some ("Training Effect: " ++ fmt1 a ++ " aerobic" ++
        (match act.anaerobicTrainingEffect with
         | some an => if an ≠ 0 ∧ 0 < an then " / " ++ fmt1 an ++ " anaerobic" else ""
         | none => ""))
    else none
  | none => none

/-- Source lines 695-697: the VO2-max detail. -/
def vo2_detail (act : Activity) : Option String :=
  match act.vO2MaxValue with
  | some v => if v ≠ 0 ∧ 0 < v then some ("VO2 Max: " ++ toString (pyInt v)) else none
  | none => none

/-- Source lines 654-700: the detail line entries of one activity, in the
append order of the source. -/
def activity_details (act : Activity) : List String :=
  List.filterMap id [hr_detail act, elev_detail act, pace_detail act,
    cadence_detail act, power_detail act, te_detail act, vo2_detail act]

/-- Source lines 605-700: render one activity as its bullet line and,
when any detail is present, an indented detail line. -/
def activity_lines (epochToHM : ℚ → Option String) (act : Activity) : List String :=
  let name := act.activityName.getD "Activity"
  let duration := fmt_duration_mmss act.duration
  let start_hm := activity_start_hm epochToHM act
  let header := "**" ++ name ++ "**" ++
    (match start_hm with
     | some h => " (" ++ h ++ ")"
     | none => "") ++ " — " ++ duration
  let header_parts := [header]
    ++ (match act.distance with
        | some d => if d ≠ 0 ∧ 0 < d then [fmt1 (qDiv d 1000) ++ " km"] else []
        | none => [])
    ++ (match act.calories with
        | some c => if c ≠ 0 ∧ 0 < c then [toString (pyInt c) ++ " cal"] else []
        | none => [])
  let details := activity_details act
  ["- " ++ String.intercalate ", " header_parts]
    ++ (if details ≠ [] then ["  " ++ String.intercalate " | " details] else [])

/-- `fetch_activities` (source lines 592-702). `epochToHM` is the ambient
epoch-milliseconds to local "HH:MM" conversion. -/
def fetch_activities (epochToHM : ℚ → Option String)
    (resp : Except String (List Activity)) : Option String :=
  match resp with
  | .error _ => none
  | .ok [] => none
  | .ok acts =>
    some (String.intercalate "\n" (["## Activities"] ++ (acts.map (activity_lines epochToHM)).flatten))

/-- The nine per-day fetcher results, one `Option String` fragment each,
in the fixed category order of `sync_day` (source lines 712-746). -/
structure DayFragments where
  sleep : Option String
  lifestyle : Option String
  body : Option String
  stress : Option String
  readiness : Option String
  respiration : Option String
  fitness_age : Option String
  intensity : Option String
  activities : Option String
deriving DecidableEq

/-- The fragments in the fixed invocation order of `sync_day`. -/
def fragList (f : DayFragments) : List (Option String) :=
  [f.sleep, f.lifestyle, f.body, f.stress, f.readiness, f.respiration,
    f.fitness_age, f.intensity, f.activities]

/-- The `if frag: sections.append(frag)` idiom: append a truthy fragment. -/
def appendIf (sections : List String) : Option String → List String
  | some s => if s ≠ "" then sections ++ [s] else sections
  | none => sections

/-- Source lines 710-746: the sections list, title first, then each truthy
fragment in the fixed order. -/
def sync_sections (title : String) (f : DayFragments) : List String :=
  appendIf (appendIf (appendIf (appendIf (appendIf (appendIf (appendIf (appendIf (appendIf
    [title] f.sleep) f.lifestyle) f.body) f.stress) f.readiness) f.respiration)
    f.fitness_age) f.intensity) f.activities

/-- The observable outcome of `sync_day` for one day: an informational
skip, or a written file with the given content. -/
inductive DayOutcome where
  | skip
  | written (content : String)
deriving DecidableEq

/-- Source lines 748-755: when only the title section exists the day is
reported as a skip and nothing is written; otherwise the sections joined
by blank lines (plus a trailing newline) are written. -/
def sync_day (title : String) (f : DayFragments) : DayOutcome :=
  let sections := sync_sections title f
  if sections.length = 1 then .skip
  else .written (String.intercalate "\n\n" sections ++ "\n")

/-- The output file of the day after `sync_day`: untouched on a skip,
overwritten on a write. -/
def fileAfter (existing : Option String) : DayOutcome → Option String
  | .skip => existing
  | .written c => some c

/-- Whether the output directory exists after `sync_day`: `mkdir` runs only
on the write path (source line 752). -/
def dirExistsAfter (existed : Bool) : DayOutcome → Bool
  | .skip => existed
  | .written _ => true

/-- The result the remote client gives to one `client.login(tokenstore)`
call inside `authenticate`. -/
inductive LoginResult where
  | success
  | notFound
  | err (msg : String)
deriving DecidableEq

/-- Source line 123: an error is retried only when its lowercased message
contains "no profile". -/
def isTransient (m : String) : Bool := strContains (pyLower m) "no profile"

/-- The observable outcome of `authenticate`: a successful login (with the
sleeps performed and the index of the succeeding attempt), or a terminal
exit after a missing-token error or a non-retryable/last error. -/
inductive AuthOutcome where
  | ok (sleeps : List ℕ) (attempt : ℕ)
  | exitNotFound (sleeps : List ℕ)
  | exitErr (sleeps : List ℕ) (lastMsg : Option String)
deriving DecidableEq

/-- The retry loop of `authenticate` (source lines 105-126). `fuel` is the
number of loop iterations left (`5 - attempt`); the base case is never
reached from `authenticate` since the last iteration always breaks. A
transient failure with a later attempt available sleeps `2 * (attempt+1)`
time units and retries. -/
def authGo (res : ℕ → LoginResult) : ℕ → ℕ → List ℕ → AuthOutcome
  | 0, _, sleeps => .exitErr sleeps none
  | fuel + 1, attempt, sleeps =>
    match res attempt with
    | .success => .ok sleeps attempt
    | .notFound => .exitNotFound sleeps
    | .err m =>
      if 1 ≤ fuel ∧ isTransient m = true then
        authGo res fuel (attempt + 1) (sleeps ++ [2 * (attempt + 1)])
      else .exitErr sleeps (some m)

/-- `authenticate` (source lines 97-155) as a function of the sequence of
login-call results: up to 5 attempts starting at attempt 0. -/
def authenticate (res : ℕ → LoginResult) : AuthOutcome := authGo res 5 0 []

/-- Source line 798: the selected days for `--days N`, most recent first,
anchored at today (days as integer day numbers). -/
def selected_days (today : ℤ) (n : ℕ) : List ℤ :=
  (List.range n).map (fun i : ℕ => today - (i : ℤ))

/-- Source line 812: the processing order is `sorted(days)`; Python
`sorted` is modelled by a stable insertion sort. -/
def processed_days (today : ℤ) (n : ℕ) : List ℤ :=
  List.insertionSort (fun a b => a ≤ b) (selected_days today n)

/-- One step of the retry loop: a successful login returns the client. -/
theorem authGo_one_success (res : ℕ → LoginResult) (f a : ℕ) (s : List ℕ)
    (h : res a = .success) : authGo res (f + 1) a s = .ok s a := by
  simp [authGo, h]

/-- One step of the retry loop: a missing cached token exits immediately. -/
theorem authGo_one_notFound (res : ℕ → LoginResult) (f a : ℕ) (s : List ℕ)
    (h : res a = .notFound) : authGo res (f + 1) a s = .exitNotFound s := by
  simp [authGo, h]

/-- One step of the retry loop: a generic error retries with a backoff
sleep when transient and attempts remain, else breaks to the exit path. -/
theorem authGo_one_err (res : ℕ → LoginResult) (f a : ℕ) (s : List ℕ) (m : String)
    (h : res a = .err m) :
    authGo res (f + 1) a s =
      if 1 ≤ f ∧ isTransient m = true then authGo res f (a + 1) (s ++ [2 * (a + 1)])
      else .exitErr s (some m) := by
  simp [authGo, h]

/-- Shifting the attempt base of the backoff-sleep list by one. -/
theorem range_shift_map (a k : ℕ) :
    (2 * (a + 1)) :: (List.range k).map (fun j : ℕ => 2 * (a + 1 + j + 1)) =
    (List.range (k + 1)).map (fun j : ℕ => 2 * (a + j + 1)) := by
  rw [List.range_succ_eq_map, List.map_cons, List.map_map]
  congr 1
  apply List.map_congr_left
  intro j hj
  simp only [Function.comp_apply]
  omega

/-- Running the retry loop over a prefix of transient failures accumulates
exactly the corresponding backoff sleeps. -/
theorem authGo_prefix (res : ℕ → LoginResult) :
    ∀ (fuel attempt k : ℕ) (sleeps : List ℕ),
      fuel + attempt = 5 → attempt ≤ k → k < 5 →
      (∀ i, attempt ≤ i → i < k → ∃ m, res i = .err m ∧ isTransient m = true) →
      authGo res fuel attempt sleeps =
        authGo res (fuel - (k - attempt)) k
          (sleeps ++ (List.range (k - attempt)).map (fun j : ℕ => 2 * (attempt + j + 1))) := by
  intro fuel
  induction fuel with
  | zero => intro attempt k sleeps hfa hak hk htr; omega
  | succ f ih =>
    intro attempt k sleeps hfa hak hk htr
    rcases eq_or_lt_of_le hak with rfl | hlt
    · simp
    · obtain ⟨m, hm, htm⟩ := htr attempt le_rfl hlt
      rw [authGo_one_err res f attempt sleeps m hm]
      rw [if_pos ⟨by omega, htm⟩]
      rw [ih (attempt + 1) k (sleeps ++ [2 * (attempt + 1)]) (by omega) (by omega) hk
        (fun i h1 h2 => htr i (by omega) h2)]
      congr 1
      · omega
      · rw [List.append_assoc]
        congr 1
        have hkk : k - attempt = (k - (attempt + 1)) + 1 := by omega
        rw [hkk, ← range_shift_map attempt (k - (attempt + 1))]
        rfl

/-- Normalizing the sleep list produced by a loop run starting at attempt 0. -/
theorem sleeps_norm (N : ℕ) :
    ([] : List ℕ) ++ (List.range (N - 0)).map (fun j : ℕ => 2 * (0 + j + 1)) =
    (List.range N).map (fun i : ℕ => 2 * (i + 1)) := by
  simp only [List.nil_append, Nat.sub_zero]
  apply List.map_congr_left
  intro j hj
  omega

/-- C2: `authenticate` retries the cached-token login up to 5 attempts.
After N transient-classified failures followed by a success (N < 5) it
succeeds having performed exactly N backoff sleeps of strictly increasing
durations 2 * attempt_number; a missing-token result on the first attempt
exits immediately with zero retries and zero sleeps; a non-transient error
is terminal at its first occurrence. -/
theorem authenticate_retry_spec :
    (∀ (res : ℕ → LoginResult) (N : ℕ), N < 5 →
      (∀ i, i < N → ∃ m, res i = .err m ∧ isTransient m = true) →
      res N = .success →
      authenticate res = .ok ((List.range N).map (fun i : ℕ => 2 * (i + 1))) N ∧
      ((List.range N).map (fun i : ℕ => 2 * (i + 1))).length = N ∧
      ((List.range N).map (fun i : ℕ => 2 * (i + 1))).Pairwise (fun a b => a < b)) ∧
    (∀ res : ℕ → LoginResult, res 0 = .notFound → authenticate res = .exitNotFound []) ∧
    (∀ (res : ℕ → LoginResult) (N : ℕ) (m : String), N < 5 →
      (∀ i, i < N → ∃ m2, res i = .err m2 ∧ isTransient m2 = true) →
      res N = .err m → isTransient m = false →
      authenticate res = .exitErr ((List.range N).map (fun i : ℕ => 2 * (i + 1))) (some m)) := by
  refine ⟨?_, ?_, ?_⟩
  · intro res N hN htr hs
    have h := authGo_prefix res 5 0 N [] (by omega) (Nat.zero_le N) hN
      (fun i h1 h2 => htr i h2)
    have hf : 5 - (N - 0) = (4 - N) + 1 := by omega
    rw [hf, sleeps_norm N] at h
    rw [authGo_one_success res (4 - N) N _ hs] at h
    refine ⟨h, by simp, ?_⟩
    exact (List.pairwise_lt_range N).map _ (fun a b hab => by omega)
  · intro res h
    have heq : authenticate res = authGo res (4 + 1) 0 [] := rfl
    rw [heq, authGo_one_notFound res 4 0 [] h]
  · intro res N m hN htr hm htm
    have h := authGo_prefix res 5 0 N [] (by omega) (Nat.zero_le N) hN
      (fun i h1 h2 => htr i h2)
    have hf : 5 - (N - 0) = (4 - N) + 1 := by omega
    rw [hf, sleeps_norm N] at h
    rw [authGo_one_err res (4 - N) N _ m hm, if_neg (by simp [htm])] at h
    exact h

/-- Witness for C2 at concrete attempt sequences: two transient failures
then success gives sleeps [2, 4]; a missing token exits with no sleeps; a
non-transient error exits at once carrying its message. -/
theorem authenticate_retry_spec_witness :
    authenticate (fun i => if i < 2 then LoginResult.err "HTTP 500: no profile found" else .success) =
      .ok [2, 4] 2 ∧
    authenticate (fun _ => LoginResult.notFound) = .exitNotFound [] ∧
    authenticate (fun _ => LoginResult.err "401: Unauthorized") =
      .exitErr [] (some "401: Unauthorized") := by
  refine ⟨?_, ?_, ?_⟩
  · obtain ⟨h1, -, -⟩ := authenticate_retry_spec.1
      (fun i => if i < 2 then LoginResult.err "HTTP 500: no profile found" else .success) 2
      (by omega)
      (fun i hi => ⟨"HTTP 500: no profile found", by simp only []; rw [if_pos hi], by decide⟩)
      (by decide)
    have hl : (List.range 2).map (fun i : ℕ => 2 * (i + 1)) = [2, 4] := by decide
    rw [hl] at h1
    exact h1
  · exact authenticate_retry_spec.2.1 (fun _ => LoginResult.notFound) rfl
  · have h3 := authenticate_retry_spec.2.2 (fun _ => LoginResult.err "401: Unauthorized") 0
      "401: Unauthorized" (by omega) (fun i hi => absurd hi (by omega)) rfl (by decide)
    simpa using h3

/-- C9: duration formatting maps None to the em dash, 0 seconds to
"0h 00m", 3725 seconds to "1h 02m"; MM:SS formatting maps None to the em
dash and 125 seconds to "2:05". -/
theorem fmt_duration_values :
    fmt_duration none = "—" ∧ fmt_duration (some 0) = "0h 00m" ∧
    fmt_duration (some 3725) = "1h 02m" ∧
    fmt_duration_mmss none = "—" ∧ fmt_duration_mmss (some 125) = "2:05" := by
  refine ⟨rfl, by decide, by decide, rfl, by decide⟩

/-- C6: the stress bucketing maps every average value into exactly one of
the four bands with thresholds Rest < 26 ≤ Low < 51 ≤ Medium < 76 ≤ High,
and in particular 25 is Rest, 26 and 50 are Low, 51 and 75 are Medium, and
76 is High. -/
theorem stress_level_bands (n : ℤ) :
    (stress_level n = "Rest" ↔ n < 26) ∧
    (stress_level n = "Low" ↔ 26 ≤ n ∧ n < 51) ∧
    (stress_level n = "Medium" ↔ 51 ≤ n ∧ n < 76) ∧
    (stress_level n = "High" ↔ 76 ≤ n) ∧
    stress_level 25 = "Rest" ∧ stress_level 26 = "Low" ∧ stress_level 50 = "Low" ∧
    stress_level 51 = "Medium" ∧ stress_level 75 = "Medium" ∧ stress_level 76 = "High" := by
  unfold stress_level
  refine ⟨?_, ?_, ?_, ?_, by decide, by decide, by decide, by decide, by decide, by decide⟩ <;>
    split_ifs with h1 h2 h3 <;> simp_all <;> omega

/-- C3: on a day where all nine fetchers return None the sections list is
just the title, the outcome is a skip, and neither the output file for the
day nor the existence of the output directory changes. -/
theorem sync_day_all_empty_skip (title : String) (existing : Option String) (dirExisted : Bool) :
    sync_sections title ⟨none, none, none, none, none, none, none, none, none⟩ = [title] ∧
    sync_day title ⟨none, none, none, none, none, none, none, none, none⟩ = .skip ∧
    fileAfter existing (sync_day title ⟨none, none, none, none, none, none, none, none, none⟩)
      = existing ∧
    dirExistsAfter dirExisted (sync_day title ⟨none, none, none, none, none, none, none, none, none⟩)
      = dirExisted :=
  ⟨rfl, rfl, rfl, rfl⟩

/-- C8: `fetch_body` returns None exactly when the activity summary,
heart-rate data, derived body-battery value and derived HRV fragment are
all absent; since the right-hand side does not mention the SpO2 or weight
sources, their presence alone never triggers inclusion, and every subset
of sources is accepted without error (the function is total). -/
theorem fetch_body_none_iff (sm : Option UserSummary) (hr : Option HeartRates)
    (bb : Option (List BBEntry)) (hd : Option HrvData) (sd : Option Spo2Data)
    (wd : Option (List WeighIn)) :
    fetch_body sm hr bb hd sd wd = none ↔
      (sm = none ∧ hr = none ∧ body_battery bb = none ∧ hrv_string hd = none) := by
  unfold fetch_body
  split_ifs with h
  · exact ⟨fun _ => h, fun _ => rfl⟩
  · simpa using h

/-- C10: the pace detail of an activity is rendered exactly when the
activity has a positive average speed and a positive distance, so the
division 1000 / speed inside `pace_detail` only runs with a nonzero
divisor, and an activity lacking a positive speed or distance has its pace
detail omitted. -/
theorem pace_detail_guard (act : Activity) :
    (pace_detail act ≠ none ↔
      (∃ s, act.averageSpeed = some s ∧ 0 < s) ∧ (∃ d, act.distance = some d ∧ 0 < d)) ∧
    (∀ s, act.averageSpeed = some s → pace_detail act ≠ none → s ≠ 0) := by
  constructor
  · unfold pace_detail
    rcases hs : act.averageSpeed with _ | s <;> rcases hd : act.distance with _ | d <;> simp
    constructor
    · intro h
      rcases h with ⟨h1, h2, h3, h4⟩
      exact ⟨h2, h4⟩
    · rintro ⟨h2, h4⟩
      exact ⟨ne_of_gt h2, h2, ne_of_gt h4, h4⟩
  · intro s hsome hne
    unfold pace_detail at hne
    rw [hsome] at hne
    rcases hd : act.distance with _ | d <;> rw [hd] at hne <;> simp at hne
    exact ne_of_gt hne.2.1

/-- Witness for C10: speed 3 and distance 1000 render a pace detail;
dropping the speed drops the detail. -/
theorem pace_detail_guard_witness :
    pace_detail ⟨none, none, none, none, none, some 1000, none, none, none, none,
      some 3, none, none, none, none, none, none⟩ ≠ none ∧
    pace_detail ⟨none, none, none, none, none, some 1000, none, none, none, none,
      none, none, none, none, none, none, none⟩ = none := by
  have h := pace_detail_guard ⟨none, none, none, none, none, some 1000, none, none, none, none,
    some 3, none, none, none, none, none, none⟩
  have h2 := pace_detail_guard ⟨none, none, none, none, none, some 1000, none, none, none, none,
    none, none, none, none, none, none, none⟩
  constructor
  · exact h.1.mpr ⟨⟨3, rfl, by decide⟩, ⟨1000, rfl, by decide⟩⟩
  · by_contra hc
    obtain ⟨⟨s, hs, -⟩, -⟩ := h2.1.mp hc
    exact Option.noConfusion hs

/-- An appended fragment that is not the empty string contributes exactly
its `Option.toList`. -/
theorem appendIf_eq (l : List String) (o : Option String) (h : o ≠ some "") :
    appendIf l o = l ++ o.toList := by
  cases o with
  | none => simp [appendIf]
  | some s =>
    have hs : s ≠ "" := fun e => h (by rw [e])
    simp [appendIf, hs]

/-- `filterMap id` over an option list peels one option at a time. -/
theorem filterMap_id_cons (o : Option String) (L : List (Option String)) :
    List.filterMap id (o :: L) = o.toList ++ List.filterMap id L := by
  cases o <;> simp

/-- The sections list is the title followed by exactly the present
fragments in the fixed category order, provided no fragment is the empty
string (no source fetcher can produce one). -/
theorem sync_sections_order (title : String) (f : DayFragments)
    (hne : ∀ o ∈ fragList f, o ≠ some "") :
    sync_sections title f = title :: (fragList f).filterMap id := by
  have h1 := hne f.sleep (by simp [fragList])
  have h2 := hne f.lifestyle (by simp [fragList])
  have h3 := hne f.body (by simp [fragList])
  have h4 := hne f.stress (by simp [fragList])
  have h5 := hne f.readiness (by simp [fragList])
  have h6 := hne f.respiration (by simp [fragList])
  have h7 := hne f.fitness_age (by simp [fragList])
  have h8 := hne f.intensity (by simp [fragList])
  have h9 := hne f.activities (by simp [fragList])
  unfold sync_sections fragList
  rw [appendIf_eq _ _ h9, appendIf_eq _ _ h8, appendIf_eq _ _ h7, appendIf_eq _ _ h6,
    appendIf_eq _ _ h5, appendIf_eq _ _ h4, appendIf_eq _ _ h3, appendIf_eq _ _ h2,
    appendIf_eq _ _ h1]
  simp [filterMap_id_cons, List.append_assoc]

/-- C4: on a day where at least one fetcher returns a fragment, the
assembled document is the title fragment followed by exactly the non-None
fragments in the fixed category order (sleep, lifestyle, body, stress,
readiness, respiration, fitness age, intensity minutes, activities), for
every subset of succeeding fetchers; the day is then written, not
skipped. -/
theorem sync_day_section_order (title : String) (f : DayFragments)
    (hne : ∀ o ∈ fragList f, o ≠ some "") :
    sync_sections title f = title :: (fragList f).filterMap id ∧
    ((∃ o ∈ fragList f, o ≠ none) →
      sync_day title f =
        .written (String.intercalate "\n\n" (title :: (fragList f).filterMap id) ++ "\n")) := by
  have horder := sync_sections_order title f hne
  refine ⟨horder, fun hex => ?_⟩
  unfold sync_day
  rw [horder]
  have hfm : (fragList f).filterMap id ≠ [] := by
    rcases hex with ⟨o, ho, hne2⟩
    rcases o with _ | s
    · exact absurd rfl hne2
    · intro hemp
      have hmem : s ∈ (fragList f).filterMap id :=
        List.mem_filterMap.mpr ⟨some s, ho, rfl⟩
      rw [hemp] at hmem
      exact absurd hmem (List.not_mem_nil s)
  have hlen : ¬ (title :: (fragList f).filterMap id).length = 1 := by
    simp only [List.length_cons]
    intro h0
    exact hfm (List.eq_nil_of_length_eq_zero (by omega))
  rw [if_neg hlen]

/-- Witness for C4: with fragments from the sleep and stress fetchers only,
the document is title, sleep fragment, stress fragment, in order, and the
day is written. -/
theorem sync_day_section_order_witness :
    sync_sections "# T" ⟨some "A", none, none, some "D", none, none, none, none, none⟩ =
      ["# T", "A", "D"] ∧
    sync_day "# T" ⟨some "A", none, none, some "D", none, none, none, none, none⟩ =
      .written "# T\n\nA\n\nD\n" := by
  have h := sync_day_section_order "# T"
    ⟨some "A", none, none, some "D", none, none, none, none, none⟩ (by decide)
  constructor
  · rw [h.1]
    decide
  · rw [h.2 (by decide)]
    decide

/-- C5: for a requested count n > 0 anchored at today, the processed days
are exactly the n most recent dates including today (membership iff),
pairwise distinct (each day processed at most once), in ascending order,
and n in number. -/
theorem day_selection_spec (today : ℤ) (n : ℕ) (h : 0 < n) :
    (∀ d : ℤ, d ∈ processed_days today n ↔ today - n < d ∧ d ≤ today) ∧
    (processed_days today n).Nodup ∧
    List.Sorted (fun a b => a ≤ b) (processed_days today n) ∧
    (processed_days today n).length = n ∧
    today ∈ processed_days today n := by
  have hperm : (processed_days today n).Perm (selected_days today n) :=
    List.perm_insertionSort _ _
  have hmem : ∀ d : ℤ, d ∈ processed_days today n ↔ today - n < d ∧ d ≤ today := by
    intro d
    rw [hperm.mem_iff]
    unfold selected_days
    simp only [List.mem_map, List.mem_range]
    constructor
    · rintro ⟨i, hi, rfl⟩
      constructor <;> omega
    · rintro ⟨hl, hr⟩
      refine ⟨(today - d).toNat, ?_, ?_⟩ <;> omega
  refine ⟨hmem, ?_, ?_, ?_, ?_⟩
  · refine (hperm.nodup_iff).mpr ?_
    unfold selected_days
    refine List.Nodup.map ?_ (List.nodup_range n)
    intro a b hab
    have h2 : (a : ℤ) = b := by simpa using hab
    exact_mod_cast h2
  · exact List.sorted_insertionSort _ _
  · rw [hperm.length_eq]
    simp [selected_days]
  · rw [hmem]
    omega

/-- Witness for C5 at three days anchored at day 0: the processed list is
the three most recent days ascending, and today is among them. -/
theorem day_selection_spec_witness :
    processed_days 0 3 = [-2, -1, 0] ∧ (0 : ℤ) ∈ processed_days 0 3 := by
  have h := day_selection_spec 0 3 (by decide)
  exact ⟨by decide, h.2.2.2.2⟩

/-- Counterexample for C1: a JSON-null sleep response (a possible remote
response shape) makes the parsing after the guarded remote call raise an
AttributeError that propagates to the caller of `fetch_sleep`, so a
failure during parsing of the response is not caught. -/
theorem fetch_sleep_parse_error :
    fetch_sleep (.ok .null) = .error "AttributeError" := by decide

/-- C1 as amended: every fetcher catches a failure of the remote call
itself and reports "no data" (for `fetch_body`, each of its six remote
calls is guarded separately, and a day with all six failing reports no
data); only the parsing and formatting after a successful call lie outside
the guard. -/
theorem fetchers_swallow_remote_errors (e : String) (eh : ℚ → Option String) :
    fetch_sleep (.error e) = .ok none ∧
    fetch_lifestyle (.error e) = none ∧
    fetch_body none none none none none none = none ∧
    fetch_stress (.error e) = none ∧
    fetch_training_readiness (.error e) = none ∧
    fetch_respiration (.error e) = none ∧
    fetch_fitness_age (.error e) = none ∧
    fetch_intensity_minutes (.error e) = none ∧
    fetch_activities eh (.error e) = none :=
  ⟨rfl, rfl, rfl, rfl, rfl, rfl, rfl, rfl, rfl⟩

/-- Counterexample for C7: a sleep response carrying the sleep-need value
as a bare number 480 (below the 1440 threshold) renders the value as-is,
"Sleep Need: 0h 08m", whereas the claimed reinterpretation as minutes
would render the 480 * 60 seconds as "8h 00m". -/
theorem sleep_need_scalar_counterexample :
    fetch_sleep (.ok (.obj [("dailySleepDTO",
        .obj [("sleepTimeSeconds", .num 28800), ("sleepNeed", .num 480)])])) =
      .ok (some "## Sleep: 8h 00m\nDeep: — | Light: — | REM: — | Awake: —\nSleep Need: 0h 08m") ∧
    (480 : ℚ) < 1440 ∧
    fmt_duration (some 480) = "0h 08m" ∧
    fmt_duration (some (qMul 480 60)) = "8h 00m" :=
  ⟨by decide, by decide, by decide, by decide⟩

/-- C7 as amended: the below-1440 minutes heuristic applies exactly when
the sleep-need value appears as a dict (probed at the key actual first): a
nonzero numeric hit below 1440 is multiplied by 60 before duration
formatting, one at least 1440 is left as-is; a bare nonzero numeric
sleep-need value is always formatted as-is, with no reinterpretation. -/
theorem sleep_need_unit_heuristic :
    (∀ (kvs : List (String × JVal)) (q : ℚ), q ≠ 0 →
      kvs.lookup "actual" = some (.num q) →
      sleep_need_lines (.obj kvs) =
        .ok ["Sleep Need: " ++ fmt_duration (some (if q < 1440 then qMul q 60 else q))]) ∧
    (∀ q : ℚ, q ≠ 0 →
      sleep_need_lines (.num q) = .ok ["Sleep Need: " ++ fmt_duration (some q)]) := by
  constructor
  · intro kvs q hq hl
    have htr : (JVal.obj kvs).truthy = true := by
      cases kvs with
      | nil => simp at hl
      | cons a l => simp [JVal.truthy]
    unfold sleep_need_lines
    rw [htr]
    simp only [if_true]
    rw [hl]
    simp only [Option.getD_some]
    have hpy : pyOr (JVal.num q) (pyOr ((kvs.lookup "value").getD .null)
        ((kvs.lookup "duration").getD .null)) = .num q := by
      simp [pyOr, JVal.truthy, hq]
    rw [hpy]
    rfl
  · intro q hq
    have htr : (JVal.num q).truthy = true := by simp [JVal.truthy, hq]
    unfold sleep_need_lines
    rw [htr]
    simp only [if_true]
    rfl

/-- Witness for C7 at the value 480 in both shapes: the dict shape gets
the minutes reinterpretation, the bare-number shape does not. -/
theorem sleep_need_unit_heuristic_witness :
    sleep_need_lines (.obj [("actual", .num 480)]) = .ok ["Sleep Need: 8h 00m"] ∧
    sleep_need_lines (.num 480) = .ok ["Sleep Need: 0h 08m"] := by
  have h1 := sleep_need_unit_heuristic.1 [("actual", .num 480)] 480 (by decide) rfl
  have h2 := sleep_need_unit_heuristic.2 480 (by decide)
  constructor
  · rw [h1]
    decide
  · rw [h2]
    decide
